import Mathlib

/-!
Verification of the Activity-Tracker fitness calculator (homework.py).

The program is a single-pass calculator over three workout variants
(Running, SportsWalking, Swimming) sharing a base class Training.
Numeric values (Python floats) are embedded as rationals; Python's
float floor-division `a // b` is embedded as `((⌊a / b⌋ : ℤ) : ℚ)`;
a raised exception is embedded as `Except.error` with the message.
-/

namespace ActivityTracker

/-- Report value object: class InfoMessage of homework.py. -/
structure InfoMessage where
  training_type : String
  duration : ℚ
  distance : ℚ
  speed : ℚ
  calories : ℚ
deriving DecidableEq, Repr

/-- Round a rational to an integer count of thousandths, ties to even:
the rounding Python's format specifier `.3f` applies to the value. -/
def roundHalfEven3 (q : ℚ) : ℤ :=
  let x := q * 1000
  let f := ⌊x⌋
  let r := x - (f : ℚ)
  if r < 1/2 then f
  else if (1 : ℚ)/2 < r then f + 1
  else if f % 2 = 0 then f else f + 1

/-- Render a rational with exactly three decimal places, as Python's
format specifier `.3f` does. -/
def fmt3 (q : ℚ) : String :=
  let n := roundHalfEven3 q
  let sign := if n < 0 then "-" else ""
  let m := n.natAbs
  let ip := m / 1000
  let fp := m % 1000
  let pad := if fp < 10 then "00" else if fp < 100 then "0" else ""
  sign ++ toString ip ++ "." ++ pad ++ toString fp

/-- InfoMessage.get_message: the fixed one-line report template of
homework.py (a Russian-language template). -/
def InfoMessage.get_message (m : InfoMessage) : String :=
  "Тип тренировки: " ++ m.training_type ++ "; Длительность: " ++ fmt3 m.duration
    ++ " ч.; Дистанция: " ++ fmt3 m.distance ++ " км; Ср. скорость: "
    ++ fmt3 m.speed ++ " км/ч; Потрачено ккал: " ++ fmt3 m.calories ++ "."

/-- Training.LEN_STEP, the base step length. -/
def LEN_STEP : ℚ := 0.65

/-- Training.M_IN_KM. -/
def M_IN_KM : ℚ := 1000

/-- Training.MIN_IN_HOUR. -/
def MIN_IN_HOUR : ℚ := 60

/-- The base class Training, directly instantiable in the source. -/
structure Training where
  action : ℚ
  duration : ℚ
  weight : ℚ
deriving DecidableEq, Repr

/-- Training.get_distance: action * LEN_STEP / M_IN_KM. -/
def Training.get_distance (t : Training) : ℚ :=
  t.action * LEN_STEP / M_IN_KM

/-- Training.get_mean_speed: get_distance() / duration. -/
def Training.get_mean_speed (t : Training) : ℚ :=
  t.get_distance / t.duration

/-- Training.get_spent_calories: the base class raises
NotImplementedError with this message, for every instance. -/
def Training.get_spent_calories (_ : Training) : Except String ℚ :=
  Except.error "NotImplementedError: <Method must be implemented in a child>"

/-- Running.MULT_COEF_CALORIE_SPEED. -/
def Running.MULT_COEF_CALORIE_SPEED : ℚ := 18

/-- Running.SUBTRAHEND_COEF_CALORIE_SPEED. -/
def Running.SUBTRAHEND_COEF_CALORIE_SPEED : ℚ := 20

/-- SportsWalking.MULT_COEF_CALORIE_WEIGH. -/
def SportsWalking.MULT_COEF_CALORIE_WEIGH : ℚ := 0.035

/-- SportsWalking.SQUARE_COEF_CALORIE_SPEED (an exponent). -/
def SportsWalking.SQUARE_COEF_CALORIE_SPEED : ℕ := 2

/-- SportsWalking.MULT_COEF_CALORIE_GENERAL. -/
def SportsWalking.MULT_COEF_CALORIE_GENERAL : ℚ := 0.029

/-- Swimming.LEN_STEP, overriding the base 0.65. -/
def Swimming.LEN_STEP : ℚ := 1.38

/-- Swimming.TERM_COEF_CALORIE_SPEED. -/
def Swimming.TERM_COEF_CALORIE_SPEED : ℚ := 1.1

/-- Swimming.MULT_COEF_CALORIE_GENERAL. -/
def Swimming.MULT_COEF_CALORIE_GENERAL : ℚ := 2

/-- The three concrete subclasses of Training, as a sum type. -/
inductive Workout where
  | running (action duration weight : ℚ)
  | sportsWalking (action duration weight height : ℚ)
  | swimming (action duration weight length_pool count_pool : ℚ)
deriving DecidableEq, Repr

namespace Workout

/-- Field self.action of any variant. -/
def action : Workout → ℚ
  | running a _ _ => a
  | sportsWalking a _ _ _ => a
  | swimming a _ _ _ _ => a

/-- Field self.duration of any variant. -/
def duration : Workout → ℚ
  | running _ d _ => d
  | sportsWalking _ d _ _ => d
  | swimming _ d _ _ _ => d

/-- Field self.weight of any variant. -/
def weight : Workout → ℚ
  | running _ _ w => w
  | sportsWalking _ _ w _ => w
  | swimming _ _ w _ _ => w

/-- The class attribute LEN_STEP seen by each variant: Swimming
overrides the base value. -/
def lenStep : Workout → ℚ
  | swimming _ _ _ _ _ => Swimming.LEN_STEP
  | _ => LEN_STEP

/-- self.__class__.__name__, used by show_training_info. -/
def name : Workout → String
  | running _ _ _ => "Running"
  | sportsWalking _ _ _ _ => "SportsWalking"
  | swimming _ _ _ _ _ => "Swimming"

/-- Training.get_distance as inherited by each variant: the only
difference between variants is the LEN_STEP class attribute. -/
def get_distance (w : Workout) : ℚ :=
  w.action * w.lenStep / M_IN_KM

/-- get_mean_speed: Swimming overrides the base formula with
length_pool * count_pool / M_IN_KM / duration; the others inherit
get_distance() / duration. -/
def get_mean_speed (w : Workout) : ℚ :=
  match w with
  | swimming _ d _ lp cp => lp * cp / M_IN_KM / d
  | _ => w.get_distance / w.duration

/-- get_spent_calories of each concrete variant, transcribed from
Running.get_spent_calories, SportsWalking.get_spent_calories and
Swimming.get_spent_calories. Python's float floor-division `//`
in the walking formula becomes an Int.floor cast back to ℚ. -/
def get_spent_calories (w : Workout) : ℚ :=
  match w with
  | running _ d wt =>
      (Running.MULT_COEF_CALORIE_SPEED * w.get_mean_speed
          - Running.SUBTRAHEND_COEF_CALORIE_SPEED)
        * wt / M_IN_KM * (d * MIN_IN_HOUR)
  | sportsWalking _ d wt h =>
      (SportsWalking.MULT_COEF_CALORIE_WEIGH * wt
          + ((⌊w.get_mean_speed ^ SportsWalking.SQUARE_COEF_CALORIE_SPEED / h⌋ : ℤ) : ℚ)
            * SportsWalking.MULT_COEF_CALORIE_GENERAL * wt)
        * (d * MIN_IN_HOUR)
  | swimming _ _ wt _ _ =>
      (w.get_mean_speed + Swimming.TERM_COEF_CALORIE_SPEED)
        * Swimming.MULT_COEF_CALORIE_GENERAL * wt

/-- Training.show_training_info, inherited by every variant. -/
def show_training_info (w : Workout) : InfoMessage :=
  ⟨w.name, w.duration, w.get_distance, w.get_mean_speed, w.get_spent_calories⟩

/-- State-passing form of get_distance: the method body contains no
assignment to self, so the post-state is the input record. -/
def get_distance_st (w : Workout) : ℚ × Workout :=
  (w.get_distance, w)

/-- State-passing form of get_mean_speed. -/
def get_mean_speed_st (w : Workout) : ℚ × Workout :=
  (w.get_mean_speed, w)

/-- State-passing form of get_spent_calories. -/
def get_spent_calories_st (w : Workout) : ℚ × Workout :=
  (w.get_spent_calories, w)

/-- State-passing form of show_training_info, threading the record
through its three method calls as the source does. -/
def show_training_info_st (w : Workout) : InfoMessage × Workout :=
  let p1 := w.get_distance_st
  let p2 := p1.2.get_mean_speed_st
  let p3 := p2.2.get_spent_calories_st
  (⟨w.name, w.duration, p1.1, p2.1, p3.1⟩, p3.2)

end Workout

/-- read_package: dispatch on the workout-type code. A recognized code
constructs the matching variant from the positional data list (a list
of the wrong length makes the Python call raise TypeError); an
unrecognized code prints two warning lines and returns the fixed
default record Running(15000, 1, 75). -/
def read_package (workout_type : String) (data : List ℚ) : Except String Workout :=
  if workout_type = "SWM" then
    match data with
    | [a, d, w, lp, cp] => Except.ok (Workout.swimming a d w lp cp)
    | _ => Except.error "TypeError: wrong number of constructor arguments"
  else if workout_type = "RUN" then
    match data with
    | [a, d, w] => Except.ok (Workout.running a d w)
    | _ => Except.error "TypeError: wrong number of constructor arguments"
  else if workout_type = "WLK" then
    match data with
    | [a, d, w, h] => Except.ok (Workout.sportsWalking a d w h)
    | _ => Except.error "TypeError: wrong number of constructor arguments"
  else
    Except.ok (Workout.running 15000 1 75)

/-! ### Helper lemmas: concrete evaluations shared by the theorems below -/

/-- If q is an exact multiple of 1/1000, rounding to thousandths is exact. -/
theorem roundHalfEven3_of_mul_1000 (q : ℚ) (n : ℤ) (h : q * 1000 = (n : ℚ)) :
    roundHalfEven3 q = n := by
  simp only [roundHalfEven3, h, Int.floor_intCast, sub_self]
  norm_num

/-- fmt3 renders 1 as "1.000". -/
theorem fmt3_at_1 : fmt3 (1 : ℚ) = "1.000" := by
  have h : roundHalfEven3 (1 : ℚ) = 1000 := roundHalfEven3_of_mul_1000 _ 1000 (by norm_num)
  simp only [fmt3, h]
  decide

/-- fmt3 renders 9.75 as "9.750". -/
theorem fmt3_at_975 : fmt3 (9.75 : ℚ) = "9.750" := by
  have h : roundHalfEven3 (9.75 : ℚ) = 9750 := roundHalfEven3_of_mul_1000 _ 9750 (by norm_num)
  simp only [fmt3, h]
  decide

/-- fmt3 renders 699.75 as "699.750". -/
theorem fmt3_at_69975 : fmt3 (699.75 : ℚ) = "699.750" := by
  have h : roundHalfEven3 (699.75 : ℚ) = 699750 :=
    roundHalfEven3_of_mul_1000 _ 699750 (by norm_num)
  simp only [fmt3, h]
  decide

/-- Distance of the RUN sample record [15000, 1, 75]. -/
theorem running_sample_distance : (Workout.running 15000 1 75).get_distance = 9.75 := by
  norm_num [Workout.get_distance, Workout.action, Workout.lenStep, LEN_STEP, M_IN_KM]

/-- Mean speed of the RUN sample record [15000, 1, 75]. -/
theorem running_sample_speed : (Workout.running 15000 1 75).get_mean_speed = 9.75 := by
  norm_num [Workout.get_mean_speed, Workout.get_distance, Workout.action,
    Workout.duration, Workout.lenStep, LEN_STEP, M_IN_KM]

/-- Calories of the RUN sample record [15000, 1, 75]. -/
theorem running_sample_calories :
    (Workout.running 15000 1 75).get_spent_calories = 699.75 := by
  norm_num [Workout.get_spent_calories, Workout.get_mean_speed, Workout.get_distance,
    Workout.action, Workout.duration, Workout.lenStep, M_IN_KM, MIN_IN_HOUR, LEN_STEP,
    Running.MULT_COEF_CALORIE_SPEED, Running.SUBTRAHEND_COEF_CALORIE_SPEED]

/-- Mean speed of the WLK sample record [9000, 1, 75, 180]. -/
theorem walking_sample_speed :
    (Workout.sportsWalking 9000 1 75 180).get_mean_speed = 5.85 := by
  norm_num [Workout.get_mean_speed, Workout.get_distance, Workout.action,
    Workout.duration, Workout.lenStep, LEN_STEP, M_IN_KM]

/-! ### Claim theorems -/

/-- C9: for every workout-type code outside SWM, RUN, WLK and every data
list, read_package returns the same fixed fallback record
Running(15000, 1, 75); two calls with different unrecognized codes and
different data lists return identical records. -/
theorem read_package_unknown_code_ignores_input (c1 c2 : String) (d1 d2 : List ℚ)
    (h1s : c1 ≠ "SWM") (h1r : c1 ≠ "RUN") (h1w : c1 ≠ "WLK")
    (h2s : c2 ≠ "SWM") (h2r : c2 ≠ "RUN") (h2w : c2 ≠ "WLK") :
    read_package c1 d1 = Except.ok (Workout.running 15000 1 75) ∧
    read_package c1 d1 = read_package c2 d2 := by
  simp only [read_package, if_neg h1s, if_neg h1r, if_neg h1w,
    if_neg h2s, if_neg h2r, if_neg h2w]
  exact ⟨trivial, trivial⟩

/-- Witness for C9 at the concrete codes "XYZ" and "ABC". -/
theorem read_package_unknown_code_ignores_input_witness :
    read_package "XYZ" [1, 2, 3] = Except.ok (Workout.running 15000 1 75) ∧
    read_package "XYZ" [1, 2, 3] = read_package "ABC" [5] :=
  read_package_unknown_code_ignores_input "XYZ" "ABC" [1, 2, 3] [5]
    (by decide) (by decide) (by decide) (by decide) (by decide) (by decide)

/-- C1 counterexample: at the unrecognized code "XYZ" the factory does
NOT fail: it returns the default record Running(15000, 1, 75). -/
theorem read_package_unknown_code_error_counterexample :
    read_package "XYZ" [1, 2, 3] = Except.ok (Workout.running 15000 1 75) := rfl

/-- C1 (amended): for every workout-type code outside SWM, RUN, WLK and
every parameter list, read_package prints a warning and returns the fixed
default record Running(15000, 1, 75) instead of failing. -/
theorem read_package_unknown_code_returns_default (code : String) (data : List ℚ)
    (hs : code ≠ "SWM") (hr : code ≠ "RUN") (hw : code ≠ "WLK") :
    read_package code data = Except.ok (Workout.running 15000 1 75) := by
  simp only [read_package, if_neg hs, if_neg hr, if_neg hw]

/-- Witness for the amended C1 at the concrete code "XYZ". -/
theorem read_package_unknown_code_returns_default_witness :
    read_package "XYZ" [] = Except.ok (Workout.running 15000 1 75) :=
  read_package_unknown_code_returns_default "XYZ" []
    (by decide) (by decide) (by decide)

/-- C2 counterexample: on a concrete report the formatter produces the
Russian template line, not the English template line the claim states. -/
theorem get_message_english_template_counterexample :
    InfoMessage.get_message ⟨"Running", 1, 9.75, 9.75, 699.75⟩
      = "Тип тренировки: Running; Длительность: 1.000 ч.; Дистанция: 9.750 км; Ср. скорость: 9.750 км/ч; Потрачено ккал: 699.750." ∧
    InfoMessage.get_message ⟨"Running", 1, 9.75, 9.75, 699.75⟩
      ≠ "Workout type: Running; Duration: 1.000 h; Distance: 9.750 km; Avg. speed: 9.750 km/h; Calories burned: 699.750." := by
  constructor
  · simp only [InfoMessage.get_message, fmt3_at_1, fmt3_at_975, fmt3_at_69975]
    decide
  · simp only [InfoMessage.get_message, fmt3_at_1, fmt3_at_975, fmt3_at_69975]
    decide

/-- C2 (amended): get_message renders the fixed one-line RUSSIAN
template of the source, with the four numeric values rendered to three
decimal places; instantiated on the RUN sample record it yields the
exact report line. -/
theorem get_message_russian_template :
    (∀ m : InfoMessage, m.get_message =
      "Тип тренировки: " ++ m.training_type ++ "; Длительность: " ++ fmt3 m.duration
        ++ " ч.; Дистанция: " ++ fmt3 m.distance ++ " км; Ср. скорость: "
        ++ fmt3 m.speed ++ " км/ч; Потрачено ккал: " ++ fmt3 m.calories ++ ".") ∧
    (Workout.running 15000 1 75).show_training_info.get_message
      = "Тип тренировки: Running; Длительность: 1.000 ч.; Дистанция: 9.750 км; Ср. скорость: 9.750 км/ч; Потрачено ккал: 699.750." := by
  refine ⟨fun m => rfl, ?_⟩
  simp only [Workout.show_training_info, Workout.name, Workout.duration,
    running_sample_distance, running_sample_speed, running_sample_calories,
    InfoMessage.get_message, fmt3_at_1, fmt3_at_975, fmt3_at_69975]
  decide

/-- C3: Swimming overrides mean speed with
length_pool * count_pool / 1000 / duration (not derived from
get_distance), keeps distance = action * 1.38 / 1000, and computes
calories = (mean_speed + 1.1) * 2 * weight; on the SWM sample record
[720, 1, 80, 25, 40] the values are 0.9936, 1 and 336, and the mean
speed indeed disagrees with distance / duration. -/
theorem swimming_formulas (a d w lp cp : ℚ) (hd : 0 < d) :
    (Workout.swimming a d w lp cp).get_mean_speed = lp * cp / 1000 / d ∧
    (Workout.swimming a d w lp cp).get_distance = a * 1.38 / 1000 ∧
    (Workout.swimming a d w lp cp).get_spent_calories
      = ((Workout.swimming a d w lp cp).get_mean_speed + 1.1) * 2 * w ∧
    (Workout.swimming 720 1 80 25 40).get_distance = 0.9936 ∧
    (Workout.swimming 720 1 80 25 40).get_mean_speed = 1 ∧
    (Workout.swimming 720 1 80 25 40).get_spent_calories = 336 ∧
    (Workout.swimming 720 1 80 25 40).get_mean_speed
      ≠ (Workout.swimming 720 1 80 25 40).get_distance
          / (Workout.swimming 720 1 80 25 40).duration := by
  refine ⟨rfl, rfl, rfl, ?_, ?_, ?_, ?_⟩
  · norm_num [Workout.get_distance, Workout.action, Workout.lenStep, Swimming.LEN_STEP,
      M_IN_KM]
  · norm_num [Workout.get_mean_speed, M_IN_KM]
  · norm_num [Workout.get_spent_calories, Workout.get_mean_speed, M_IN_KM,
      Swimming.TERM_COEF_CALORIE_SPEED, Swimming.MULT_COEF_CALORIE_GENERAL]
  · norm_num [Workout.get_mean_speed, Workout.get_distance, Workout.action,
      Workout.duration, Workout.lenStep, Swimming.LEN_STEP, M_IN_KM]

/-- Witness for C3 at the SWM sample record. -/
theorem swimming_formulas_witness :
    (Workout.swimming 720 1 80 25 40).get_mean_speed = 25 * 40 / 1000 / 1 ∧
    (Workout.swimming 720 1 80 25 40).get_distance = 720 * 1.38 / 1000 ∧
    (Workout.swimming 720 1 80 25 40).get_spent_calories
      = ((Workout.swimming 720 1 80 25 40).get_mean_speed + 1.1) * 2 * 80 ∧
    (Workout.swimming 720 1 80 25 40).get_distance = 0.9936 ∧
    (Workout.swimming 720 1 80 25 40).get_mean_speed = 1 ∧
    (Workout.swimming 720 1 80 25 40).get_spent_calories = 336 ∧
    (Workout.swimming 720 1 80 25 40).get_mean_speed
      ≠ (Workout.swimming 720 1 80 25 40).get_distance
          / (Workout.swimming 720 1 80 25 40).duration :=
  swimming_formulas 720 1 80 25 40 (by decide)

/-- C4: SportsWalking calories equal
(0.035 * weight + floor(mean_speed ^ 2 / height) * 0.029 * weight)
* (duration * 60), where the inner division is truncating floor
division; on the WLK sample record [9000, 1, 75, 180] the floor term is
0 and the calories are 157.5. -/
theorem sports_walking_calories_floor_division (a d w h : ℚ)
    (hd : 0 < d) (hh : 0 < h) :
    (Workout.sportsWalking a d w h).get_spent_calories
      = (0.035 * w
          + ((⌊((Workout.sportsWalking a d w h).get_mean_speed) ^ 2 / h⌋ : ℤ) : ℚ)
            * 0.029 * w) * (d * 60) ∧
    (⌊((Workout.sportsWalking 9000 1 75 180).get_mean_speed) ^ 2 / (180 : ℚ)⌋ : ℤ) = 0 ∧
    (Workout.sportsWalking 9000 1 75 180).get_spent_calories = 157.5 := by
  refine ⟨rfl, ?_, ?_⟩
  · rw [walking_sample_speed]
    norm_num
  · norm_num [Workout.get_spent_calories, Workout.get_mean_speed, Workout.get_distance,
      Workout.action, Workout.duration, Workout.lenStep, M_IN_KM, MIN_IN_HOUR, LEN_STEP,
      SportsWalking.MULT_COEF_CALORIE_WEIGH, SportsWalking.SQUARE_COEF_CALORIE_SPEED,
      SportsWalking.MULT_COEF_CALORIE_GENERAL]

/-- Witness for C4 at the WLK sample record. -/
theorem sports_walking_calories_floor_division_witness :
    (Workout.sportsWalking 9000 1 75 180).get_spent_calories
      = (0.035 * 75
          + ((⌊((Workout.sportsWalking 9000 1 75 180).get_mean_speed) ^ 2 / (180 : ℚ)⌋ : ℤ) : ℚ)
            * 0.029 * 75) * (1 * 60) ∧
    (⌊((Workout.sportsWalking 9000 1 75 180).get_mean_speed) ^ 2 / (180 : ℚ)⌋ : ℤ) = 0 ∧
    (Workout.sportsWalking 9000 1 75 180).get_spent_calories = 157.5 :=
  sports_walking_calories_floor_division 9000 1 75 180 (by decide) (by decide)

/-- C5 counterexample: on the RUN sample record [15000, 1, 75] the
calories are 699.75, not the 649.125 the claim states. -/
theorem running_scenario_value_counterexample :
    (Workout.running 15000 1 75).get_spent_calories = 699.75 ∧
    (Workout.running 15000 1 75).get_spent_calories ≠ 649.125 := by
  refine ⟨running_sample_calories, ?_⟩
  rw [running_sample_calories]
  norm_num

/-- C5 (amended): Running calories equal
(18 * mean_speed - 20) * weight / 1000 * (duration * 60); on the RUN
sample record [15000, 1, 75] the result is 699.75. -/
theorem running_calories_formula (a d w : ℚ) (hd : 0 < d) :
    (Workout.running a d w).get_spent_calories
      = (18 * (Workout.running a d w).get_mean_speed - 20) * w / 1000 * (d * 60) ∧
    (Workout.running 15000 1 75).get_spent_calories = 699.75 :=
  ⟨rfl, running_sample_calories⟩

/-- Witness for the amended C5 at the RUN sample record. -/
theorem running_calories_formula_witness :
    (Workout.running 15000 1 75).get_spent_calories
      = (18 * (Workout.running 15000 1 75).get_mean_speed - 20) * 75 / 1000 * (1 * 60) ∧
    (Workout.running 15000 1 75).get_spent_calories = 699.75 :=
  running_calories_formula 15000 1 75 (by decide)

/-- C6: Running distance is exactly action * 0.65 / 1000 and its mean
speed is distance / duration. -/
theorem running_distance_and_speed (a d w : ℚ) (hd : 0 < d) :
    (Workout.running a d w).get_distance = a * 0.65 / 1000 ∧
    (Workout.running a d w).get_mean_speed
      = (Workout.running a d w).get_distance / d :=
  ⟨rfl, rfl⟩

/-- Witness for C6 at the RUN sample record. -/
theorem running_distance_and_speed_witness :
    (Workout.running 15000 1 75).get_distance = 15000 * 0.65 / 1000 ∧
    (Workout.running 15000 1 75).get_mean_speed
      = (Workout.running 15000 1 75).get_distance / 1 :=
  running_distance_and_speed 15000 1 75 (by decide)

/-- C7: calling get_spent_calories on the base class Training always
raises (is an error for every instance) and never returns a value. -/
theorem training_base_calories_unimplemented (t : Training) :
    t.get_spent_calories
      = Except.error "NotImplementedError: <Method must be implemented in a child>" ∧
    ∀ v : ℚ, t.get_spent_calories ≠ Except.ok v :=
  ⟨rfl, fun _ h => Except.noConfusion h⟩

/-- C8: the four methods mutate no field: in state-passing form each
returns the input record unchanged, for every variant. -/
theorem workout_methods_preserve_record (w : Workout) :
    (w.get_distance_st).2 = w ∧ (w.get_mean_speed_st).2 = w ∧
    (w.get_spent_calories_st).2 = w ∧ (w.show_training_info_st).2 = w :=
  ⟨rfl, rfl, rfl, rfl⟩

/-- C10: Swimming mean speed and calories do not depend on the action
field: two records differing only in action give equal speeds and equal
calories, while get_distance does depend on action. -/
theorem swimming_speed_calories_independent_of_action
    (a1 a2 d w lp cp : ℚ) (hne : a1 ≠ a2) :
    (Workout.swimming a1 d w lp cp).get_mean_speed
      = (Workout.swimming a2 d w lp cp).get_mean_speed ∧
    (Workout.swimming a1 d w lp cp).get_spent_calories
      = (Workout.swimming a2 d w lp cp).get_spent_calories ∧
    (Workout.swimming 720 1 80 25 40).get_distance
      ≠ (Workout.swimming 721 1 80 25 40).get_distance := by
  refine ⟨rfl, rfl, ?_⟩
  norm_num [Workout.get_distance, Workout.action, Workout.lenStep, Swimming.LEN_STEP,
    M_IN_KM]

/-- Witness for C10 at two SWM records differing only in action. -/
theorem swimming_speed_calories_independent_of_action_witness :
    (Workout.swimming 720 1 80 25 40).get_mean_speed
      = (Workout.swimming 721 1 80 25 40).get_mean_speed ∧
    (Workout.swimming 720 1 80 25 40).get_spent_calories
      = (Workout.swimming 721 1 80 25 40).get_spent_calories ∧
    (Workout.swimming 720 1 80 25 40).get_distance
      ≠ (Workout.swimming 721 1 80 25 40).get_distance :=
  swimming_speed_calories_independent_of_action 720 721 1 80 25 40 (by decide)

end ActivityTracker
